import Mathlib

/-!
Verification of the flytekit data-persistence layer
(`flytekit/core/data_persistence.py`).

The Python source is shallowly embedded below:

* Python string primitives (`str.startswith`, `os.path.join`,
  `os.path.split`, `os.path.dirname`, and the hex rendering of
  `UUID(int=n)`) are modelled as executable functions on `String`
  (internally on `List Char`, which mirrors Python's
  character-sequence view of `str`).
* The plugin registry `DataPersistencePlugins._PLUGINS` is a Python
  dict, i.e. an insertion-ordered association list with unique keys;
  it is modelled as `List (String × α)`.  Updating an existing key
  keeps its position, a new key is appended at the end, and iteration
  (`.items()`) follows that order — exactly Python's dict semantics.
* `DiskPersistence` methods perform filesystem effects
  (`shutil.copyfile`, `distutils.dir_util.copy_tree`, `os.makedirs`);
  each method is modelled as the list of effects it performs, so that
  "no-op" and "performs a copy" are provable statements.  `os.listdir`
  and `os.walk` are modelled by an `OsFs` record of query functions
  plus a concrete directory-tree datatype with the documented
  top-down `os.walk` traversal.
* `FileAccessProvider` is a record holding the registry, the default
  remote plugin resolved at construction, the raw output prefix
  string and the sandbox directory; `get_data`/`put_data` wrap the
  underlying calls and rebuild the exact Python error message strings.
* Exceptions are modelled with `Except String`, carrying the message
  text built by the same f-string templates as the source.
-/

/-! ## Python string primitives -/

/-- Python `s.startswith(pre)`: `pre` is a character-wise leading
substring of `s`. -/
def pyStartswith (s pre : String) : Bool :=
  pre.toList.isPrefixOf s.toList

/-- Python `s.endswith(suf)`. -/
def pyEndswith (s suf : String) : Bool :=
  suf.toList.isSuffixOf s.toList

/-- One step of Python `os.path.join` (posix): an absolute second
component discards the first; otherwise the components are glued with
`/` unless the accumulated part is empty or already ends in `/`. -/
def pyJoin2 (a b : String) : String :=
  if pyStartswith b "/" then b
  else if a = "" || pyEndswith a "/" then a ++ b
  else a ++ "/" ++ b

/-- Python `os.path.join(a, *rest)` (posix), folding `pyJoin2`. -/
def pyJoin (a : String) (rest : List String) : String :=
  rest.foldl pyJoin2 a

/-- The tail component of Python `os.path.split(p)`: the characters
after the last `/` (the whole string when there is no `/`). -/
def pySplitTail (p : String) : String :=
  String.mk ((p.toList.reverse.takeWhile (fun c => c ≠ '/')).reverse)

/-- Python `os.path.dirname(p)` (posix): everything up to the last
`/`, with trailing slashes stripped unless the head is all slashes. -/
def pyDirname (p : String) : String :=
  let cs := p.toList
  if cs.contains '/' then
    let head := (cs.reverse.dropWhile (fun c => c ≠ '/')).reverse
    if head.all (fun c => c = '/') then String.mk head
    else String.mk ((head.reverse.dropWhile (fun c => c = '/')).reverse)
  else ""

/-- Python `str(b)` for a `bool`. -/
def pyBool (b : Bool) : String :=
  if b then "True" else "False"

/-- The lowercase hexadecimal digit character for a value below 16:
the digits `0`–`9` (codepoints from 48) then `a`–`f` (codepoints from
97). -/
def hexDigit (n : Nat) : Char :=
  if n < 10 then Char.ofNat (48 + n) else Char.ofNat (87 + n)

/-- `UUID(int=n).hex` for `n < 2^128`: the 32-character zero-padded
lowercase hexadecimal rendering of `n` (big-endian digits). -/
def uuidHex (n : Nat) : String :=
  String.mk ((List.range 32).map (fun i => hexDigit (n / 16 ^ (31 - i) % 16)))

/-! ## The plugin registry (`DataPersistencePlugins`)

`_PLUGINS` is a class-level dict from protocol string to plugin.  The
registry operations are polymorphic in the plugin type: the abstract
`Plugin` (identity plus name, enough for Python's default object
equality `p == plugin`) is used for the registration claims, and the
operation-carrying `PluginOps` for the transfer claims. -/

/-- A registered backend as the registry claims see it: Python object
identity is modelled by a numeric id, and `name` is the
`DataPersistence.name` property. -/
structure Plugin where
  name : String
  ident : Nat
deriving DecidableEq, Repr

/-- Python `d[k]` / `k in d` on the ordered-association-list model of
a dict (first entry with the key; keys are unique in any list built by
`dictSet`). -/
def dictLookup {α : Type} (reg : List (String × α)) (k : String) : Option α :=
  match reg with
  | [] => none
  | (k', v) :: rest => if k' = k then some v else dictLookup rest k

/-- Python `d[k] = v` on the dict model: replace in place at an
existing key (keeping its position), otherwise append at the end. -/
def dictSet {α : Type} (reg : List (String × α)) (k : String) (v : α) :
    List (String × α) :=
  match reg with
  | [] => [(k, v)]
  | (k', v') :: rest =>
      if k' = k then (k', v) :: rest else (k', v') :: dictSet rest k v

/-- The `TypeError` message raised by
`DataPersistencePlugins.register_plugin` on a conflicting
registration, from the f-string in the source. -/
def conflictMsg (newName protocol oldName : String) : String :=
  "Cannot register plugin " ++ newName ++ " for protocol " ++ protocol ++
    " as plugin " ++ oldName ++ " is already registered for the same protocol." ++
    " You can force register the new plugin by passing force=True"

/-- The `TypeError` message raised by
`DataPersistencePlugins.find_plugin` when no protocol matches. -/
def noPluginMsg (path : String) : String :=
  "No plugin found for matching protocol of path " ++ path

/-- `DataPersistencePlugins.register_plugin(protocol, plugin, force)`.
The result pairs the raised-or-ok outcome with the registry state
after the call (the Python `raise` happens before the dict assignment,
so on error the registry is returned unchanged).  `p == plugin` is
Python's default object-identity comparison, modelled by equality of
`Plugin` values. -/
def register_plugin (reg : List (String × Plugin))
    (protocol : String) (plugin : Plugin) (force : Bool) :
    Except String Unit × List (String × Plugin) :=
  match dictLookup reg protocol with
  | some p =>
      if p = plugin then (Except.ok (), reg)
      else if force then (Except.ok (), dictSet reg protocol plugin)
      else (Except.error (conflictMsg plugin.name protocol p.name), reg)
  | none => (Except.ok (), dictSet reg protocol plugin)

/-- `DataPersistencePlugins.find_plugin(path)`: scan the registry in
insertion order and return the plugin of the first protocol that is a
`startswith`-match of `path`; raise `TypeError` otherwise. -/
def find_plugin {α : Type} (reg : List (String × α)) (path : String) :
    Except String α :=
  match reg with
  | [] => Except.error (noPluginMsg path)
  | (k, p) :: rest =>
      if pyStartswith path k then Except.ok p else find_plugin rest path

/-- `DataPersistencePlugins.is_supported_protocol(protocol)`: exact
key membership. -/
def is_supported_protocol {α : Type} (reg : List (String × α))
    (protocol : String) : Bool :=
  (dictLookup reg protocol).isSome

/-! ## The local-disk backend (`DiskPersistence`)

Filesystem queries (`os.path.exists`, `os.listdir`, `os.walk`) are
abstracted into an `OsFs` record; filesystem mutations are recorded as
the list of effects a method performs, in order. -/

/-- The filesystem query interface used by `DiskPersistence`:
`os.listdir` (immediate child entry names), `os.walk` (top-down
`(root, subdirectories, files)` triples) and `os.path.exists`. -/
structure OsFs where
  listdir : String → List String
  walk : String → List (String × List String × List String)
  pathExists : String → Bool

/-- A filesystem mutation performed by a `DiskPersistence` method:
`_make_local_path` (ensure a directory exists), `shutil.copyfile`, or
`distutils.dir_util.copy_tree`. -/
inductive FsAction where
  | mkdirs (path : String)
  | copyFile (src dst : String)
  | copyTree (src dst : String)
deriving DecidableEq, Repr

/-- `DiskPersistence.strip_file_header(path)`: drop a leading
`file://` if present.  The source guards with `startswith("file://")`
and then removes the first occurrence (`replace("file://", "", 1)`);
under the guard the first occurrence is the leading one, so this is
dropping the first seven characters. -/
def strip_file_header (path : String) : String :=
  if pyStartswith path "file://" then String.mk (path.toList.drop 7)
  else path

/-- `DiskPersistence.exists(path)`. -/
def DiskPersistence.existsPath (fs : OsFs) (path : String) : Bool :=
  fs.pathExists (strip_file_header path)

/-- `DiskPersistence.listdir(path, recursive)`: non-recursive mode
yields the `os.listdir` entries of the stripped path; recursive mode
yields `os.path.join(root, f)` for every file of every `os.walk`
triple, in walk order. -/
def DiskPersistence.listdir (fs : OsFs) (path : String) (recursive : Bool) :
    List String :=
  if recursive then
    (fs.walk (strip_file_header path)).flatMap
      (fun r => r.2.2.map (fun f => pyJoin2 r.1 f))
  else fs.listdir (strip_file_header path)

/-- `DiskPersistence.download(from_path, to_path)`: a single
`shutil.copyfile` on the stripped paths. -/
def DiskPersistence.download (from_path to_path : String) : List FsAction :=
  [FsAction.copyFile (strip_file_header from_path) (strip_file_header to_path)]

/-- `DiskPersistence.download_directory(from_path, to_path)`: a
`copy_tree` on the stripped paths, guarded by inequality of the raw
(unstripped) path strings. -/
def DiskPersistence.download_directory (from_path to_path : String) :
    List FsAction :=
  if from_path = to_path then []
  else [FsAction.copyTree (strip_file_header from_path) (strip_file_header to_path)]

/-- `DiskPersistence.upload(from_path, to_path)`: ensure the
destination's parent directory exists (`_make_local_path` of
`os.path.dirname`), then `shutil.copyfile`. -/
def DiskPersistence.upload (from_path to_path : String) : List FsAction :=
  [FsAction.mkdirs (pyDirname (strip_file_header to_path)),
   FsAction.copyFile (strip_file_header from_path) (strip_file_header to_path)]

/-- `DiskPersistence.upload_directory(from_path, to_path)`: the source
delegates verbatim to `download_directory`. -/
def DiskPersistence.upload_directory (from_path to_path : String) :
    List FsAction :=
  DiskPersistence.download_directory from_path to_path

/-- `DiskPersistence.construct_path(add_protocol, *args)`:
`os.path.join` of the arguments, with the `file://` protocol token
prepended as an extra first component when requested. -/
def DiskPersistence.construct_path (add_protocol : Bool)
    (args : List String) : String :=
  if add_protocol then pyJoin "file://" args
  else
    match args with
    | [] => ""
    | a :: rest => pyJoin a rest

/-! ### A concrete directory tree and the `os.walk` traversal

Used to evaluate `listdir` on the directory of the spec's example.
`os.walk(top)` (top-down, the default) yields
`(top, dirs, files)` for the entries of `top` in scan order, then
recurses into each subdirectory with the path `os.path.join(top, d)`. -/

/-- A finite directory tree: named files and named directories. -/
inductive FsTree where
  | file (name : String)
  | dir (name : String) (children : List FsTree)
deriving Repr

/-- The subdirectory names among a list of children, in order. -/
def dirEntries (children : List FsTree) : List String :=
  children.filterMap fun c =>
    match c with
    | FsTree.dir n _ => some n
    | FsTree.file _ => none

/-- The file names among a list of children, in order. -/
def fileEntries (children : List FsTree) : List String :=
  children.filterMap fun c =>
    match c with
    | FsTree.file n => some n
    | FsTree.dir _ _ => none

mutual

/-- Top-down `os.walk` over a concrete tree rooted at path `top`. -/
def walkTree (top : String) : FsTree → List (String × List String × List String)
  | FsTree.file _ => []
  | FsTree.dir _ cs => (top, dirEntries cs, fileEntries cs) :: walkChildren top cs

/-- The recursive part of `walkTree`: walk each subdirectory child
under its `os.path.join`-ed path. -/
def walkChildren (top : String) : List FsTree → List (String × List String × List String)
  | [] => []
  | c :: cs =>
      (match c with
       | FsTree.dir n _ => walkTree (pyJoin2 top n) c
       | FsTree.file _ => []) ++ walkChildren top cs

end

mutual

/-- No name anywhere in the tree starts with `/` (true of every real
directory entry name; `os.path.join` would discard the left part for
an absolute right part). -/
def noAbsNames : FsTree → Bool
  | FsTree.file n => !(pyStartswith n "/")
  | FsTree.dir n cs => !(pyStartswith n "/") && noAbsNamesList cs

/-- `noAbsNames` over a list of children. -/
def noAbsNamesList : List FsTree → Bool
  | [] => true
  | c :: cs => noAbsNames c && noAbsNamesList cs

end

/-! ## The storage client (`FileAccessProvider`) -/

/-- A backend as the transfer operations see it: the four transfer
methods, each returning success or a raised error message. -/
structure PluginOps where
  name : String
  download : String → String → Except String Unit
  download_directory : String → String → Except String Unit
  upload : String → String → Except String Unit
  upload_directory : String → String → Except String Unit

/-- The state of a constructed `FileAccessProvider`: the registry it
resolves paths against, `_default_remote`, `_raw_output_prefix` and
`_local_sandbox_dir`. -/
structure FileAccess where
  registry : List (String × PluginOps)
  default_remote : PluginOps
  rawOutput : String
  sandboxDir : String

/-- `FileAccessProvider.__init__(local_sandbox_dir, raw_output_prefix)`:
reject an empty sandbox root, append `local_flytekit` to it, and
resolve the default remote plugin from the raw output prefix through
the registry. -/
def mkFileAccess (reg : List (String × PluginOps))
    (local_sandbox_dir : String) (raw : String) : Except String FileAccess :=
  if local_sandbox_dir = "" then Except.error "Can't use empty path"
  else
    (find_plugin reg raw).map fun d =>
      { registry := reg
        default_remote := d
        rawOutput := raw
        sandboxDir := pyJoin2 local_sandbox_dir "local_flytekit" }

/-- `FileAccessProvider.download(remote_path, local_path)`: resolve
the plugin for the remote path and delegate (a resolution failure
propagates as the raised `TypeError`). -/
def FileAccess.downloadOp (fap : FileAccess) (remote_path local_path : String) :
    Except String Unit :=
  (find_plugin fap.registry remote_path).bind fun p => p.download remote_path local_path

/-- `FileAccessProvider.download_directory(remote_path, local_path)`. -/
def FileAccess.downloadDirOp (fap : FileAccess) (remote_path local_path : String) :
    Except String Unit :=
  (find_plugin fap.registry remote_path).bind fun p =>
    p.download_directory remote_path local_path

/-- The `FlyteAssertion` message built by `FileAccessProvider.get_data`
around a caught exception, from the format string in the source. -/
def getDataMsg (remote_path local_path : String) (is_multipart : Bool)
    (err : String) : String :=
  "Failed to get data from " ++ remote_path ++ " to " ++ local_path ++
    " (recursive=" ++ pyBool is_multipart ++ ").\n\nOriginal exception: " ++ err

/-- The `FlyteAssertion` message built by
`FileAccessProvider.put_data` around a caught exception. -/
def putDataMsg (local_path remote_path : String) (is_multipart : Bool)
    (err : String) : String :=
  "Failed to put data from " ++ local_path ++ " to " ++ remote_path ++
    " (recursive=" ++ pyBool is_multipart ++ ").\n\nOriginal exception: " ++ err

/-- `FileAccessProvider.get_data(remote_path, local_path, is_multipart)`:
run the (registry-resolved) download, catching any exception and
re-raising it as a `FlyteAssertion` with the wrapped message. -/
def get_data (fap : FileAccess) (remote_path local_path : String)
    (is_multipart : Bool) : Except String Unit :=
  match (if is_multipart then fap.downloadDirOp remote_path local_path
         else fap.downloadOp remote_path local_path) with
  | Except.ok _ => Except.ok ()
  | Except.error e =>
      Except.error (getDataMsg remote_path local_path is_multipart e)

/-- `FileAccessProvider.put_data(local_path, remote_path, is_multipart)`:
run the upload on `self._default_remote` (no registry resolution),
catching any exception and re-raising it as a `FlyteAssertion`. -/
def put_data (fap : FileAccess) (local_path remote_path : String)
    (is_multipart : Bool) : Except String Unit :=
  match (if is_multipart then fap.default_remote.upload_directory local_path remote_path
         else fap.default_remote.upload local_path remote_path) with
  | Except.ok _ => Except.ok ()
  | Except.error e =>
      Except.error (putDataMsg local_path remote_path is_multipart e)

/-- `FileAccessProvider.construct_random_path(persist, hint)` with the
random 128-bit key passed explicitly and the plugin's
`construct_path(False, *args)` passed as a function: keep the tail of
a truthy hint when it is non-empty, else build `<raw>/<key>`.  The
base is always `self._raw_output_prefix`. -/
def construct_random_path (rawOutput : String)
    (constructPath : List String → String) (key : String)
    (hint : Option String) : String :=
  match hint with
  | some h =>
      if h ≠ "" then
        let tail := pySplitTail h
        if tail ≠ "" then constructPath [rawOutput, key, tail]
        else constructPath [rawOutput, key]
      else constructPath [rawOutput, key]
  | none => constructPath [rawOutput, key]

/-- `FileAccessProvider.get_random_local_path(hint)`:
`construct_random_path` against `self._local`, a `DiskPersistence`,
whose `construct_path(False, *args)` is `os.path.join(*args)`. -/
def get_random_local_path (fap : FileAccess) (key : String)
    (hint : Option String) : String :=
  construct_random_path fap.rawOutput
    (DiskPersistence.construct_path false) key hint

/-! ## Concrete fixtures used by the example-level statements -/

/-- The disk plugin value registered at module load
(`DiskPersistence()`, `name="local"`). -/
def diskPlugin : Plugin := { name := "local", ident := 0 }

/-- A mem backend as in the spec's resolution example. -/
def memPlugin : Plugin := { name := "mem", ident := 1 }

/-- A first backend for the conflict scenarios. -/
def aPlugin : Plugin := { name := "A", ident := 2 }

/-- A second, different backend for the conflict scenarios. -/
def bPlugin : Plugin := { name := "B", ident := 3 }

/-- The registry of the spec's resolution example: `file://`, `/` and
`mem://`, in that registration order (the first two as the module's
self-registration performs it). -/
def exampleRegistry : List (String × Plugin) :=
  [("file://", diskPlugin), ("/", diskPlugin), ("mem://", memPlugin)]

/-- A registry in which the later protocol `/tmp` is shadowed by the
earlier, more general protocol `/`. -/
def shadowRegistry : List (String × Plugin) :=
  [("/", diskPlugin), ("/tmp", aPlugin)]

/-- The directory of the spec's `listDirectory` example: `/d`
containing `a.txt` and `sub/b.txt`. -/
def exTree : FsTree :=
  FsTree.dir "d" [FsTree.file "a.txt", FsTree.dir "sub" [FsTree.file "b.txt"]]

/-- An `OsFs` in which `/d` holds the example directory. -/
def exFs : OsFs :=
  { listdir := fun p =>
      if p = "/d" then ["a.txt", "sub"]
      else if p = "/d/sub" then ["b.txt"] else []
    walk := fun p => if p = "/d" then walkTree "/d" exTree else []
    pathExists := fun p =>
      p = "/d" || p = "/d/a.txt" || p = "/d/sub" || p = "/d/sub/b.txt" }

/-- An empty filesystem. -/
def emptyFs : OsFs :=
  { listdir := fun _ => [], walk := fun _ => [], pathExists := fun _ => false }

/-- A mem backend whose operations all succeed. -/
def memOps : PluginOps :=
  { name := "mem"
    download := fun _ _ => Except.ok ()
    download_directory := fun _ _ => Except.ok ()
    upload := fun _ _ => Except.ok ()
    upload_directory := fun _ _ => Except.ok () }

/-- A backend whose every operation raises `boom`. -/
def failingOps : PluginOps :=
  { name := "s3"
    download := fun _ _ => Except.error "boom"
    download_directory := fun _ _ => Except.error "boom"
    upload := fun _ _ => Except.error "boom"
    upload_directory := fun _ _ => Except.error "boom" }

/-- A default-remote backend whose uploads fail with a recognisable
marker, to observe which backend `put_data` actually invokes. -/
def defaultMarkedOps : PluginOps :=
  { name := "default-remote"
    download := fun _ _ => Except.ok ()
    download_directory := fun _ _ => Except.ok ()
    upload := fun _ _ => Except.error "DEFAULT-UPLOAD-USED"
    upload_directory := fun _ _ => Except.error "DEFAULT-UPLOAD-USED" }

/-- A provider whose registry resolves `mem://` paths to `memOps`
while its configured default remote is `defaultMarkedOps`; the
sandbox root was `sb` and the raw output prefix `s3://bucket/raw`. -/
def demoFap : FileAccess :=
  { registry := [("mem://", memOps)]
    default_remote := defaultMarkedOps
    rawOutput := "s3://bucket/raw"
    sandboxDir := pyJoin2 "sb" "local_flytekit" }

/-- A provider every one of whose backend calls fails with `boom`. -/
def failFap : FileAccess :=
  { registry := [("", failingOps)]
    default_remote := failingOps
    rawOutput := "raw"
    sandboxDir := pyJoin2 "sb" "local_flytekit" }

/-- The provider `mkFileAccess` builds from a one-entry registry, used
to witness construction-time resolution of the default remote. -/
def builtFap : FileAccess :=
  { registry := [("s3://", defaultMarkedOps)]
    default_remote := defaultMarkedOps
    rawOutput := "s3://bucket/raw"
    sandboxDir := pyJoin2 "sb" "local_flytekit" }

/-! ## Helper lemmas on the string primitives -/

theorem pyStartswith_self (s : String) : pyStartswith s s = true := by
  simp [pyStartswith, List.isPrefixOf_iff_prefix]

theorem pyStartswith_append_left (a x : String) : pyStartswith (a ++ x) a = true := by
  have h : (a ++ x).toList = a.toList ++ x.toList := String.data_append a x
  simp [pyStartswith, h, List.isPrefixOf_iff_prefix]

theorem pyStartswith_trans {a b c : String} (h1 : pyStartswith a b = true)
    (h2 : pyStartswith b c = true) : pyStartswith a c = true := by
  simp [pyStartswith, List.isPrefixOf_iff_prefix] at *
  exact h2.trans h1

theorem strip_prepended (p : String) : strip_file_header ("file://" ++ p) = p := by
  have hsw : pyStartswith ("file://" ++ p) "file://" = true :=
    pyStartswith_append_left "file://" p
  have hdata : ("file://" ++ p).toList = "file://".toList ++ p.toList :=
    String.data_append "file://" p
  have h7 : ("file://".toList).length = 7 := rfl
  simp only [strip_file_header, hsw, if_true, hdata]
  rw [← h7, List.drop_left]
  cases p with
  | mk d => rfl

theorem strip_keep {p : String} (h : pyStartswith p "file://" = false) :
    strip_file_header p = p := by
  simp [strip_file_header, h]

theorem string_append_left_cancel {a b c : String} (h : a ++ b = a ++ c) :
    b = c := by
  have hd := congrArg String.data h
  rw [String.data_append, String.data_append] at hd
  exact String.ext (List.append_cancel_left hd)

/-! ## Helper lemmas on the registry -/

theorem find_plugin_eq_firstMatch {α : Type} (reg : List (String × α))
    (path : String) :
    find_plugin reg path =
      (reg.find? (fun e => pyStartswith path e.1)).elim
        (Except.error (noPluginMsg path)) (fun e => Except.ok e.2) := by
  induction reg with
  | nil => simp [find_plugin]
  | cons head tail ih =>
      obtain ⟨k, p⟩ := head
      by_cases h : pyStartswith path k
      · simp [find_plugin, h, List.find?_cons]
      · simp only [Bool.not_eq_true] at h
        simp [find_plugin, h, List.find?_cons, ih]

theorem find_plugin_none {α : Type} (reg : List (String × α)) (path : String)
    (h : ∀ e ∈ reg, pyStartswith path e.1 = false) :
    find_plugin reg path = Except.error (noPluginMsg path) := by
  induction reg with
  | nil => simp [find_plugin]
  | cons head tail ih =>
      obtain ⟨k, p⟩ := head
      have hk : pyStartswith path k = false := h (k, p) (by simp)
      simp only [find_plugin, hk, Bool.false_eq_true, if_false]
      exact ih fun e he => h e (List.mem_cons_of_mem _ he)

theorem dictLookup_dictSet_self {α : Type} (reg : List (String × α))
    (k : String) (v : α) : dictLookup (dictSet reg k v) k = some v := by
  induction reg with
  | nil => simp [dictSet, dictLookup]
  | cons head tail ih =>
      obtain ⟨k', v'⟩ := head
      by_cases h : k' = k
      · simp [dictSet, dictLookup, h]
      · simp [dictSet, dictLookup, h, ih]

theorem find_plugin_dictSet {α : Type} (reg : List (String × α))
    (k : String) (v : α)
    (h : ∀ e ∈ reg.takeWhile (fun x => x.1 != k), pyStartswith k e.1 = false) :
    find_plugin (dictSet reg k v) k = Except.ok v := by
  induction reg with
  | nil => simp [dictSet, find_plugin, pyStartswith_self]
  | cons head tail ih =>
      obtain ⟨k', v'⟩ := head
      by_cases hk : k' = k
      · subst hk
        simp [dictSet, find_plugin, pyStartswith_self]
      · have hmem : (k', v') ∈ ((k', v') :: tail).takeWhile
            (fun x : String × α => x.1 != k) := by
          simp [List.takeWhile_cons, hk]
        have hk' : pyStartswith k k' = false := h (k', v') hmem
        have htail : ∀ e ∈ tail.takeWhile (fun x : String × α => x.1 != k),
            pyStartswith k e.1 = false := by
          intro e he
          refine h e ?_
          simp only [List.takeWhile_cons, bne_iff_ne, ne_eq, hk,
            not_false_eq_true, if_true] at *
          exact List.mem_cons_of_mem _ he
        simp only [dictSet, hk, if_false, find_plugin, hk',
          Bool.false_eq_true]
        exact ih htail

/-! ## Claim C1 -/

/-- Claim C1: `find_plugin` iterates the registered protocols in
registration order and returns the backend of the first protocol that
is a literal string prefix of the path, failing with the
no-plugin-found `TypeError` when no protocol matches; with `file://`,
`/` and `mem://` registered, `mem://bucket/key` resolves to the mem
backend and `/tmp/x` to the disk backend. -/
theorem c1_find_plugin_resolution :
    (∀ (reg : List (String × Plugin)) (path : String),
        find_plugin reg path =
          (reg.find? (fun e => pyStartswith path e.1)).elim
            (Except.error (noPluginMsg path)) (fun e => Except.ok e.2)) ∧
    (∀ (reg : List (String × Plugin)) (path : String),
        (∀ e ∈ reg, pyStartswith path e.1 = false) →
        find_plugin reg path = Except.error (noPluginMsg path)) ∧
    find_plugin exampleRegistry "mem://bucket/key" = Except.ok memPlugin ∧
    find_plugin exampleRegistry "/tmp/x" = Except.ok diskPlugin :=
  ⟨fun reg path => find_plugin_eq_firstMatch reg path,
   fun reg path h => find_plugin_none reg path h,
   rfl, rfl⟩

/-- Witness for C1: a registry none of whose protocols matches the
path makes `find_plugin` fail with the no-plugin-found error. -/
theorem c1_find_plugin_resolution_witness :
    find_plugin [("mem://", memPlugin)] "/tmp/x" =
      Except.error (noPluginMsg "/tmp/x") :=
  c1_find_plugin_resolution.2.1 [("mem://", memPlugin)] "/tmp/x"
    (by decide)

/-! ## Claim C2 -/

/-- Counterexample to C2 as stated: in a registry where `/` was
registered before `/tmp`, force-registering backend B for `/tmp`
succeeds and the registry maps `/tmp` to B, yet resolving the path
`/tmp` afterwards returns the disk backend bound to the earlier,
shadowing protocol `/` — not B. -/
theorem c2_register_force_resolve_counterexample :
    (register_plugin shadowRegistry "/tmp" bPlugin true).1 = Except.ok () ∧
    dictLookup (register_plugin shadowRegistry "/tmp" bPlugin true).2 "/tmp" =
      some bPlugin ∧
    find_plugin (register_plugin shadowRegistry "/tmp" bPlugin true).2 "/tmp" =
      Except.ok diskPlugin ∧
    diskPlugin ≠ bPlugin :=
  ⟨rfl, rfl, rfl, by decide⟩

/-- Claim C2 (amended): when a protocol is bound to backend A and a
different backend B is registered for it without force, the call fails
with the conflict `TypeError` naming both backend names and the shared
protocol and the registry is left unchanged (the protocol still maps
to A); with force it succeeds and afterwards the registry maps the
protocol to B — and resolving the protocol as a path returns B
provided no earlier-registered protocol also prefix-matches it. -/
theorem c2_register_conflict_amended :
    ∀ (reg : List (String × Plugin)) (p : String) (A B : Plugin),
      dictLookup reg p = some A → A ≠ B →
      (register_plugin reg p B false =
        (Except.error (conflictMsg B.name p A.name), reg)) ∧
      ((register_plugin reg p B true).1 = Except.ok ()) ∧
      (dictLookup (register_plugin reg p B true).2 p = some B) ∧
      ((∀ e ∈ reg.takeWhile (fun x => x.1 != p), pyStartswith p e.1 = false) →
        find_plugin (register_plugin reg p B true).2 p = Except.ok B) := by
  intro reg p A B hA hAB
  have hne : ¬(A = B) := hAB
  refine ⟨?_, ?_, ?_, ?_⟩
  · simp [register_plugin, hA, hne]
  · simp [register_plugin, hA, hne]
  · simp only [register_plugin, hA, hne, if_false, if_true]
    exact dictLookup_dictSet_self reg p B
  · intro hshadow
    simp only [register_plugin, hA, hne, if_false, if_true]
    exact find_plugin_dictSet reg p B hshadow

/-- Witness for C2 (amended): with `s3://` bound to backend A,
registering backend B without force raises the conflict error naming
A, B and `s3://` and leaves the registry unchanged, while
force-registration rebinds `s3://` to B and `s3://` then resolves to
B. -/
theorem c2_register_conflict_amended_witness :
    (register_plugin [("s3://", aPlugin)] "s3://" bPlugin false =
      (Except.error (conflictMsg bPlugin.name "s3://" aPlugin.name),
        [("s3://", aPlugin)])) ∧
    find_plugin (register_plugin [("s3://", aPlugin)] "s3://" bPlugin true).2
      "s3://" = Except.ok bPlugin := by
  have h := c2_register_conflict_amended [("s3://", aPlugin)] "s3://"
    aPlugin bPlugin (by decide) (by decide)
  exact ⟨h.1, h.2.2.2 (by decide)⟩

/-! ## Claim C6 -/

/-- Claim C6: registering the very backend already bound to a protocol
is idempotent — no error and exactly the same registry, for either
value of force. -/
theorem c6_register_idempotent :
    ∀ (reg : List (String × Plugin)) (p : String) (b : Plugin) (force : Bool),
      dictLookup reg p = some b →
      register_plugin reg p b force = (Except.ok (), reg) := by
  intro reg p b force h
  simp [register_plugin, h]

/-- Witness for C6: re-registering the disk plugin for `file://` in a
registry where it is already bound returns ok and the unchanged
registry. -/
theorem c6_register_idempotent_witness :
    register_plugin [("file://", diskPlugin)] "file://" diskPlugin false =
      (Except.ok (), [("file://", diskPlugin)]) :=
  c6_register_idempotent [("file://", diskPlugin)] "file://" diskPlugin false
    (by decide)

/-! ## Claim C4 -/

theorem getDataMsg_ne (rp lp : String) (mp : Bool) (e : String) :
    getDataMsg rp lp mp e ≠ e := by
  intro h
  have hl := congrArg String.length h
  simp only [getDataMsg, String.length_append] at hl
  have h1 : ("Failed to get data from ").length = 24 := rfl
  omega

theorem putDataMsg_ne (lp rp : String) (mp : Bool) (e : String) :
    putDataMsg lp rp mp e ≠ e := by
  intro h
  have hl := congrArg String.length h
  simp only [putDataMsg, String.length_append] at hl
  have h1 : ("Failed to put data from ").length = 24 := rfl
  omega

/-- Claim C4: whenever the underlying (registry-resolved) download or
the default-remote upload raises, `get_data`/`put_data` raise the
`FlyteAssertion` whose message embeds the remote path, the local path,
the directory flag and the original message — and that wrapped message
is never the bare underlying error. -/
theorem c4_transfer_failure_wrapping :
    ∀ (fap : FileAccess) (rp lp : String) (mp : Bool) (e : String),
      ((if mp then fap.downloadDirOp rp lp else fap.downloadOp rp lp) =
          Except.error e →
        get_data fap rp lp mp = Except.error (getDataMsg rp lp mp e) ∧
        getDataMsg rp lp mp e ≠ e) ∧
      ((if mp then fap.default_remote.upload_directory lp rp
        else fap.default_remote.upload lp rp) = Except.error e →
        put_data fap lp rp mp = Except.error (putDataMsg lp rp mp e) ∧
        putDataMsg lp rp mp e ≠ e) := by
  intro fap rp lp mp e
  constructor
  · intro h
    exact ⟨by simp [get_data, h], getDataMsg_ne rp lp mp e⟩
  · intro h
    exact ⟨by simp [put_data, h], putDataMsg_ne lp rp mp e⟩

/-- Witness for C4: a provider whose backend calls all fail with
`boom` makes `get_data` and `put_data` fail with the wrapped messages,
which differ from `boom`. -/
theorem c4_transfer_failure_wrapping_witness :
    (get_data failFap "r" "l" false =
        Except.error (getDataMsg "r" "l" false "boom") ∧
      getDataMsg "r" "l" false "boom" ≠ "boom") ∧
    (put_data failFap "l" "r" true =
        Except.error (putDataMsg "l" "r" true "boom") ∧
      putDataMsg "l" "r" true "boom" ≠ "boom") :=
  ⟨(c4_transfer_failure_wrapping failFap "r" "l" false "boom").1 rfl,
   (c4_transfer_failure_wrapping failFap "r" "l" true "boom").2 rfl⟩

/-! ## Claim C5 -/

/-- Claim C5: `put_data` always invokes the client's configured
default remote backend (the one `find_plugin` resolved from the raw
output prefix at construction) and never consults the registry for the
remote path: its result is invariant under any replacement of the
registry, and in a provider whose registry resolves the remote path to
a different backend the default remote is still the one invoked. -/
theorem c5_put_data_default_remote :
    (∀ (fap : FileAccess) (reg2 : List (String × PluginOps))
        (lp rp : String) (mp : Bool),
        put_data { fap with registry := reg2 } lp rp mp =
          put_data fap lp rp mp) ∧
    (∀ (reg : List (String × PluginOps)) (sb raw : String) (fap : FileAccess),
        mkFileAccess reg sb raw = Except.ok fap →
        find_plugin reg raw = Except.ok fap.default_remote) ∧
    find_plugin demoFap.registry "mem://x" = Except.ok memOps ∧
    memOps.name ≠ demoFap.default_remote.name ∧
    put_data demoFap "l" "mem://x" false =
      Except.error (putDataMsg "l" "mem://x" false "DEFAULT-UPLOAD-USED") := by
  refine ⟨fun fap reg2 lp rp mp => rfl, ?_, rfl, by decide, rfl⟩
  intro reg sb raw fap h
  simp only [mkFileAccess] at h
  by_cases hsb : sb = ""
  · simp [hsb] at h
  · simp only [hsb, if_false] at h
    cases hfp : find_plugin reg raw with
    | error e => rw [hfp] at h; simp [Except.map] at h
    | ok d =>
        rw [hfp] at h
        simp only [Except.map] at h
        cases h
        rfl

/-- Witness for C5: for the provider `mkFileAccess` builds from a
registry binding `s3://`, the default remote recorded in the provider
is exactly the plugin resolved from the raw output prefix. -/
theorem c5_put_data_default_remote_witness :
    find_plugin [("s3://", defaultMarkedOps)] "s3://bucket/raw" =
      Except.ok builtFap.default_remote :=
  c5_put_data_default_remote.2.1 [("s3://", defaultMarkedOps)] "sb"
    "s3://bucket/raw" builtFap rfl

/-! ## Claim C3 -/

/-- Claim C3, code behaviour at the failing input: the random path key
is always 32 characters, but `get_random_local_path` builds the path
on the raw output prefix — for a provider with sandbox directory
`sb/local_flytekit` and raw output prefix `s3://bucket/raw` the
generated local path is `s3://bucket/raw/<hex>`, which does not lie
under (or even start with) the sandbox directory; in general the base
of `construct_random_path` is the raw output prefix regardless of
which plugin is passed. -/
theorem c3_random_local_path_ignores_sandbox :
    (∀ n : Nat, (uuidHex n).length = 32) ∧
    get_random_local_path demoFap (uuidHex 0) none =
      "s3://bucket/raw/00000000000000000000000000000000" ∧
    pyStartswith (get_random_local_path demoFap (uuidHex 0) none)
      demoFap.sandboxDir = false ∧
    (∀ (fap : FileAccess) (key : String),
        get_random_local_path fap key none =
          DiskPersistence.construct_path false [fap.rawOutput, key]) := by
  refine ⟨?_, by decide, by decide, fun fap key => rfl⟩
  intro n
  show ((List.range 32).map fun i => hexDigit (n / 16 ^ (31 - i) % 16)).length = 32
  simp

/-! ## Helper lemmas on the walk traversal -/

theorem pyJoin2_startswith {a b : String} (h : pyStartswith b "/" = false) :
    pyStartswith (pyJoin2 a b) a = true := by
  simp only [pyJoin2, h, Bool.false_eq_true, if_false]
  by_cases ha : (a = "" || pyEndswith a "/") = true
  · simp only [ha, if_true]
    exact pyStartswith_append_left a b
  · simp only [ha, if_false]
    exact pyStartswith_trans (pyStartswith_append_left (a ++ "/") b)
      (pyStartswith_append_left a "/")

mutual

theorem walkTree_roots (top : String) (t : FsTree) (ht : noAbsNames t = true) :
    ∀ r ∈ walkTree top t, pyStartswith r.1 top = true := by
  cases t with
  | file n =>
      intro r hr
      simp [walkTree] at hr
  | dir n cs =>
      intro r hr
      simp only [walkTree, List.mem_cons] at hr
      rcases hr with h1 | h2
      · rw [h1]
        exact pyStartswith_self top
      · have hcs : noAbsNamesList cs = true := by
          simp only [noAbsNames, Bool.and_eq_true] at ht
          exact ht.2
        exact walkChildren_roots top cs hcs r h2

theorem walkChildren_roots (top : String) (cs : List FsTree)
    (h : noAbsNamesList cs = true) :
    ∀ r ∈ walkChildren top cs, pyStartswith r.1 top = true := by
  cases cs with
  | nil =>
      intro r hr
      simp [walkChildren] at hr
  | cons c cs2 =>
      intro r hr
      have hsplit : noAbsNames c = true ∧ noAbsNamesList cs2 = true := by
        simp only [noAbsNamesList, Bool.and_eq_true] at h
        exact h
      simp only [walkChildren, List.mem_append] at hr
      rcases hr with h1 | h2
      · cases c with
        | file n => simp at h1
        | dir n cs3 =>
            have hn : pyStartswith n "/" = false := by
              have := hsplit.1
              simp only [noAbsNames, Bool.and_eq_true, Bool.not_eq_true'] at this
              exact this.1
            have hroot := walkTree_roots (pyJoin2 top n) (FsTree.dir n cs3)
              hsplit.1 r h1
            exact pyStartswith_trans hroot (pyJoin2_startswith hn)
      · exact walkChildren_roots top cs2 hsplit.2 r h2

end

/-! ## Claim C7 -/

/-- Counterexample to C7 as stated: on `/d` containing `a.txt` and
`sub/b.txt`, non-recursive `listdir` also yields the immediate child
directory `sub` (not only `a.txt`), and recursive `listdir` yields the
walk-root-prefixed paths `/d/a.txt` and `/d/sub/b.txt` — neither
`a.txt` nor `sub/b.txt` relative to the walk root appears. -/
theorem c7_listdir_relative_counterexample :
    DiskPersistence.listdir exFs "/d" false ≠ ["a.txt"] ∧
    "sub" ∈ DiskPersistence.listdir exFs "/d" false ∧
    DiskPersistence.listdir exFs "/d" true = ["/d/a.txt", "/d/sub/b.txt"] ∧
    "a.txt" ∉ DiskPersistence.listdir exFs "/d" true ∧
    "sub/b.txt" ∉ DiskPersistence.listdir exFs "/d" true :=
  ⟨by decide, by decide, by decide, by decide, by decide⟩

/-- Claim C7 (amended): non-recursive `listdir` yields exactly the
immediate child entry names reported by the filesystem (files and
directories alike), and recursive `listdir` yields each file's path
joined onto its walk root, so every yielded path extends the walk
root: on `/d` containing `a.txt` and `sub/b.txt` the non-recursive
listing is `a.txt, sub` and the recursive listing is `/d/a.txt,
/d/sub/b.txt`; over any tree whose entry names are not absolute, every
walk root — hence every recursive listing entry's directory part —
starts with the walk's top path. -/
theorem c7_listdir_amended :
    (∀ (fs : OsFs) (p : String),
        DiskPersistence.listdir fs p false = fs.listdir (strip_file_header p)) ∧
    DiskPersistence.listdir exFs "/d" false = ["a.txt", "sub"] ∧
    DiskPersistence.listdir exFs "/d" true = ["/d/a.txt", "/d/sub/b.txt"] ∧
    (∀ (top : String) (t : FsTree), noAbsNames t = true →
        ∀ r ∈ walkTree top t, pyStartswith r.1 top = true) :=
  ⟨fun fs p => rfl, by decide, by decide,
   fun top t ht => walkTree_roots top t ht⟩

/-- Witness for C7 (amended): on the concrete example tree the walk
root of the nested triple, `/d/sub`, starts with the walk top `/d`. -/
theorem c7_listdir_amended_witness :
    pyStartswith "/d/sub" "/d" = true :=
  c7_listdir_amended.2.2.2 "/d" exTree (by decide)
    ("/d/sub", [], ["b.txt"]) (by decide)

/-! ## Claim C8 -/

/-- Counterexample to C8 as stated: `file:///d` and `/d` designate the
same location (they strip to the same path), yet `download_directory`
is not a no-op on them — the raw strings differ, so a `copy_tree` of
`/d` onto itself is performed. -/
theorem c8_download_directory_same_location_counterexample :
    strip_file_header "file:///d" = strip_file_header "/d" ∧
    DiskPersistence.download_directory "file:///d" "/d" =
      [FsAction.copyTree "/d" "/d"] ∧
    DiskPersistence.download_directory "file:///d" "/d" ≠ [] :=
  ⟨by decide, by decide, by decide⟩

/-- Claim C8 (amended): the Disk backend's `download_directory` is a
no-op exactly when the source and destination path strings are
identical, the comparison happening before `file://` stripping. -/
theorem c8_download_directory_noop_amended :
    ∀ fp tp : String,
      DiskPersistence.download_directory fp tp = [] ↔ fp = tp := by
  intro fp tp
  by_cases h : fp = tp
  · simp [DiskPersistence.download_directory, h]
  · simp [DiskPersistence.download_directory, h]

/-! ## Claim C9 -/

/-- Claim C9: for paths that do not already begin with `file://`,
every Disk backend operation invoked with `file://`-prefixed paths (in
all path argument positions) behaves identically to the invocation
with the bare paths. -/
theorem c9_file_header_transparent :
    ∀ (fs : OsFs) (p q : String) (r : Bool),
      pyStartswith p "file://" = false → pyStartswith q "file://" = false →
      DiskPersistence.existsPath fs ("file://" ++ p) =
        DiskPersistence.existsPath fs p ∧
      DiskPersistence.listdir fs ("file://" ++ p) r =
        DiskPersistence.listdir fs p r ∧
      DiskPersistence.download ("file://" ++ p) ("file://" ++ q) =
        DiskPersistence.download p q ∧
      DiskPersistence.download_directory ("file://" ++ p) ("file://" ++ q) =
        DiskPersistence.download_directory p q ∧
      DiskPersistence.upload ("file://" ++ p) ("file://" ++ q) =
        DiskPersistence.upload p q ∧
      DiskPersistence.upload_directory ("file://" ++ p) ("file://" ++ q) =
        DiskPersistence.upload_directory p q := by
  intro fs p q r hp hq
  have sp := strip_prepended p
  have sq := strip_prepended q
  have kp := strip_keep hp
  have kq := strip_keep hq
  have hdd : DiskPersistence.download_directory ("file://" ++ p) ("file://" ++ q) =
      DiskPersistence.download_directory p q := by
    by_cases hpq : p = q
    · subst hpq
      simp [DiskPersistence.download_directory]
    · have hne : ("file://" ++ p) ≠ ("file://" ++ q) := fun hh =>
        hpq (string_append_left_cancel hh)
      simp [DiskPersistence.download_directory, hpq, hne, sp, sq, kp, kq]
  refine ⟨?_, ?_, ?_, hdd, ?_, hdd⟩
  · simp [DiskPersistence.existsPath, sp, kp]
  · simp [DiskPersistence.listdir, sp, kp]
  · simp [DiskPersistence.download, sp, sq, kp, kq]
  · simp [DiskPersistence.upload, sp, sq, kp, kq]

/-- Witness for C9: the transparency conjunction at a concrete
filesystem and concrete bare paths. -/
theorem c9_file_header_transparent_witness :
    DiskPersistence.existsPath emptyFs ("file://" ++ "a") =
      DiskPersistence.existsPath emptyFs "a" ∧
    DiskPersistence.listdir emptyFs ("file://" ++ "a") false =
      DiskPersistence.listdir emptyFs "a" false ∧
    DiskPersistence.download ("file://" ++ "a") ("file://" ++ "b") =
      DiskPersistence.download "a" "b" ∧
    DiskPersistence.download_directory ("file://" ++ "a") ("file://" ++ "b") =
      DiskPersistence.download_directory "a" "b" ∧
    DiskPersistence.upload ("file://" ++ "a") ("file://" ++ "b") =
      DiskPersistence.upload "a" "b" ∧
    DiskPersistence.upload_directory ("file://" ++ "a") ("file://" ++ "b") =
      DiskPersistence.upload_directory "a" "b" :=
  c9_file_header_transparent emptyFs "a" "b" false (by decide) (by decide)

/-! ## Claim C10 -/

/-- Claim C10: the Disk backend's `upload_directory` is extensionally
equal to `download_directory` on every pair of paths (the same guarded
tree copy), and unlike single-file `upload` it performs no
parent-directory creation, while `upload` always does. -/
theorem c10_upload_directory_is_download_directory :
    ∀ fp tp : String,
      DiskPersistence.upload_directory fp tp =
        DiskPersistence.download_directory fp tp ∧
      (∀ d : String, FsAction.mkdirs d ∉ DiskPersistence.upload_directory fp tp) ∧
      FsAction.mkdirs (pyDirname (strip_file_header tp)) ∈
        DiskPersistence.upload fp tp := by
  intro fp tp
  refine ⟨rfl, ?_, by simp [DiskPersistence.upload]⟩
  intro d
  simp only [DiskPersistence.upload_directory, DiskPersistence.download_directory]
  by_cases h : fp = tp
  · simp [h]
  · simp [h]
